import Mathlib

/-!
Verification of the fossil-monorepo proof-worker against its specification.

The development shallowly embeds:
 - the JSON wire model and the untagged `Job` enum of
   crates/message_handlers/src/services/jobs.rs (namespace MH);
 - the proof worker of
   proving-service/crates/message-handler/src/services/proof_job_handler.rs
   (namespace PS): per-message admission, the spawned task's failure
   accounting, and the poll loop, both as executable functions and as a
   small-step relation used for the concurrency invariant.
Machine integers are modelled as Int with explicit i64 range checks where
the code's parsing depends on them.
-/

/-- JSON values, as far as the wire formats of this repository need them.
Numeric fields of both job variants are i64, so numbers are modelled as Int
(a fractional literal would fail to parse into any field of these schemas). -/
inductive Json where
  | null
  | bool (b : Bool)
  | num (n : Int)
  | str (s : String)
  | arr (elems : List Json)
  | obj (fields : List (String × Json))

/-- First-occurrence lookup in an association list, the access pattern of a
JSON object's fields (serde reads each declared field by name). -/
def assocLookup {β : Type} : List (String × β) → String → Option β
  | [], _ => none
  | (k, v) :: rest, key => if k = key then some v else assocLookup rest key

/-- Smallest i64 value. -/
def i64Min : Int := -(2 ^ 63)

/-- Largest i64 value. -/
def i64Max : Int := 2 ^ 63 - 1

/-- Whether an integer is representable as an i64; serde rejects a JSON
number outside this range when the target field is i64. -/
def fitsI64 (n : Int) : Bool := decide (i64Min ≤ n) && decide (n ≤ i64Max)

/-- Decoding of a required String field (serde: missing or non-string fails). -/
def decodeString : Option Json → Option String
  | some (Json.str s) => some s
  | _ => none

/-- Decoding of a required i64 field. -/
def decodeI64 : Option Json → Option Int
  | some (Json.num n) => if fitsI64 n then some n else none
  | _ => none

/-- Decoding of an optional String field: serde maps a missing field and an
explicit null both to None, a string to Some, anything else fails. -/
def decodeOptString : Option Json → Option (Option String)
  | none => some none
  | some Json.null => some none
  | some (Json.str s) => some (some s)
  | _ => none

/-- Decoding of an optional i64 field, same conventions as optional strings. -/
def decodeOptI64 : Option Json → Option (Option Int)
  | none => some none
  | some Json.null => some none
  | some (Json.num n) => if fitsI64 n then some (some n) else none
  | _ => none

/-- Encoding of an optional String field; serde serialises None as null
(there is no skip attribute on any field of either variant). -/
def encodeOptString : Option String → Json
  | none => Json.null
  | some s => Json.str s

/-- Encoding of an optional i64 field. -/
def encodeOptI64 : Option Int → Json
  | none => Json.null
  | some n => Json.num n

namespace MH

/-- Modelled from the spec: the receipt carried by ProofGenerated is the
external risc0 Receipt type, treated as an opaque proof artefact
(spec: OpaqueBlob); its JSON form is modelled as a single string. -/
structure Receipt where
  blob : String
deriving DecidableEq, Repr

/-- RequestProof of crates/message_handlers/src/services/jobs.rs. -/
structure RequestProof where
  job_id : String
  job_group_id : Option String
  start_timestamp : Int
  end_timestamp : Int
deriving DecidableEq, Repr

/-- ProofGenerated of crates/message_handlers/src/services/jobs.rs. -/
structure ProofGenerated where
  job_id : String
  receipt : Receipt
deriving DecidableEq, Repr

/-- The untagged Job enum of crates/message_handlers/src/services/jobs.rs. -/
inductive Job where
  | RequestProof (r : RequestProof)
  | ProofGenerated (p : ProofGenerated)
deriving DecidableEq, Repr

/-- Field names declared by the RequestProof struct. -/
def requestProofFieldNames : List String :=
  ["job_id", "job_group_id", "start_timestamp", "end_timestamp"]

/-- Field names declared by the ProofGenerated struct. -/
def proofGeneratedFieldNames : List String := ["job_id", "receipt"]

/-- Decoding of RequestProof from an object's field list, as serde derives
it: each declared field is read by name, unknown fields are ignored
(the struct carries no deny-unknown-fields attribute). -/
def decodeRequestProofFields (fs : List (String × Json)) : Option RequestProof :=
  match decodeString (assocLookup fs "job_id"),
        decodeOptString (assocLookup fs "job_group_id"),
        decodeI64 (assocLookup fs "start_timestamp"),
        decodeI64 (assocLookup fs "end_timestamp") with
  | some jid, some grp, some s, some e => some ⟨jid, grp, s, e⟩
  | _, _, _, _ => none

/-- Decoding of RequestProof from a JSON value (a non-object fails). -/
def decodeRequestProof : Json → Option RequestProof
  | Json.obj fs => decodeRequestProofFields fs
  | _ => none

/-- Decoding of the opaque receipt blob. -/
def decodeReceipt : Json → Option Receipt
  | Json.str s => some ⟨s⟩
  | _ => none

/-- Decoding of ProofGenerated from an object's field list. -/
def decodeProofGeneratedFields (fs : List (String × Json)) : Option ProofGenerated :=
  match decodeString (assocLookup fs "job_id"),
        (assocLookup fs "receipt").bind decodeReceipt with
  | some jid, some r => some ⟨jid, r⟩
  | _, _ => none

/-- Decoding of ProofGenerated from a JSON value. -/
def decodeProofGenerated : Json → Option ProofGenerated
  | Json.obj fs => decodeProofGeneratedFields fs
  | _ => none

/-- Untagged deserialisation of Job: serde tries the variants in declaration
order and returns the first that succeeds. -/
def parseJob (j : Json) : Option Job :=
  match decodeRequestProof j with
  | some r => some (Job.RequestProof r)
  | none =>
    match decodeProofGenerated j with
    | some p => some (Job.ProofGenerated p)
    | none => none

/-- Serialisation of RequestProof: fields in declaration order, None as null. -/
def encodeRequestProof (r : RequestProof) : Json :=
  Json.obj [("job_id", Json.str r.job_id),
            ("job_group_id", encodeOptString r.job_group_id),
            ("start_timestamp", Json.num r.start_timestamp),
            ("end_timestamp", Json.num r.end_timestamp)]

/-- Serialisation of ProofGenerated. -/
def encodeProofGenerated (p : ProofGenerated) : Json :=
  Json.obj [("job_id", Json.str p.job_id), ("receipt", Json.str p.receipt.blob)]

/-- Untagged serialisation of Job: the content of the active variant. -/
def serializeJob : Job → Json
  | Job.RequestProof r => encodeRequestProof r
  | Job.ProofGenerated p => encodeProofGenerated p

end MH

namespace PS

/-- Modelled from the spec: the external risc0 Receipt is an opaque proof
artefact; only its identity matters to the worker. -/
structure Receipt where
  blob : String
deriving DecidableEq, Repr

/-- RequestProof of the proving-service job model, exactly the fields the
worker and its tests construct and read (proof_job_handler.rs). -/
structure RequestProof where
  job_id : String
  job_group_id : Option String
  start_timestamp : Int
  end_timestamp : Int
  twap_start_timestamp : Option Int
  twap_end_timestamp : Option Int
  reserve_price_start_timestamp : Option Int
  reserve_price_end_timestamp : Option Int
  max_return_start_timestamp : Option Int
  max_return_end_timestamp : Option Int
deriving DecidableEq, Repr

/-- ProofGenerated of the proving-service job model. -/
structure ProofGenerated where
  job_id : String
  receipt : Receipt
deriving DecidableEq, Repr

/-- The proving-service Job enum, untagged on the wire like its
message_handlers counterpart. -/
inductive Job where
  | RequestProof (r : RequestProof)
  | ProofGenerated (p : ProofGenerated)
deriving DecidableEq, Repr

/-- ProofTimestampRanges of proof_composition/mod.rs: three closed pairs. -/
structure ProofTimestampRanges where
  twap : Int × Int
  reserve_price : Int × Int
  max_return : Int × Int
deriving DecidableEq, Repr

/-- Constructor ProofTimestampRanges::new of proof_composition/mod.rs. -/
def ProofTimestampRanges.new (twap_start twap_end reserve_price_start
    reserve_price_end max_return_start max_return_end : Int) :
    ProofTimestampRanges :=
  ⟨(twap_start, twap_end), (reserve_price_start, reserve_price_end),
   (max_return_start, max_return_end)⟩

/-- Helper create_timestamp_ranges of proof_job_handler.rs: each optional
sub-range endpoint falls back to the job's outer endpoint. -/
def create_timestamp_ranges (job : RequestProof) : ProofTimestampRanges :=
  let twap_start := job.twap_start_timestamp.getD job.start_timestamp
  let twap_end := job.twap_end_timestamp.getD job.end_timestamp
  let reserve_price_start :=
    job.reserve_price_start_timestamp.getD job.start_timestamp
  let reserve_price_end := job.reserve_price_end_timestamp.getD job.end_timestamp
  let max_return_start := job.max_return_start_timestamp.getD job.start_timestamp
  let max_return_end := job.max_return_end_timestamp.getD job.end_timestamp
  ProofTimestampRanges.new twap_start twap_end reserve_price_start
    reserve_price_end max_return_start max_return_end

/-- Modelled from the spec: the proving-service crate's own jobs.rs is not
under src/, so its wire shape follows the spec's external-interface section
(field names as listed there) with serde's derived behaviour. -/
def decodeRequestProofFields (fs : List (String × Json)) : Option RequestProof :=
  match decodeString (assocLookup fs "job_id"),
        decodeOptString (assocLookup fs "job_group_id"),
        decodeI64 (assocLookup fs "start_timestamp"),
        decodeI64 (assocLookup fs "end_timestamp"),
        decodeOptI64 (assocLookup fs "twap_start_timestamp"),
        decodeOptI64 (assocLookup fs "twap_end_timestamp"),
        decodeOptI64 (assocLookup fs "reserve_price_start_timestamp"),
        decodeOptI64 (assocLookup fs "reserve_price_end_timestamp"),
        decodeOptI64 (assocLookup fs "max_return_start_timestamp"),
        decodeOptI64 (assocLookup fs "max_return_end_timestamp") with
  | some jid, some grp, some s, some e, some ts, some te, some rs, some re2,
    some ms, some me => some ⟨jid, grp, s, e, ts, te, rs, re2, ms, me⟩
  | _, _, _, _, _, _, _, _, _, _ => none

/-- Decoding of the proving-service RequestProof from a JSON value. -/
def decodeRequestProof : Json → Option RequestProof
  | Json.obj fs => decodeRequestProofFields fs
  | _ => none

/-- Decoding of the opaque receipt blob. -/
def decodeReceipt : Json → Option Receipt
  | Json.str s => some ⟨s⟩
  | _ => none

/-- Decoding of the proving-service ProofGenerated from a JSON value. -/
def decodeProofGenerated : Json → Option ProofGenerated
  | Json.obj fs =>
    (match decodeString (assocLookup fs "job_id"),
           (assocLookup fs "receipt").bind decodeReceipt with
     | some jid, some r => some ⟨jid, r⟩
     | _, _ => none)
  | _ => none

/-- Untagged deserialisation of the proving-service Job. -/
def parseJob (j : Json) : Option Job :=
  match decodeRequestProof j with
  | some r => some (Job.RequestProof r)
  | none =>
    match decodeProofGenerated j with
    | some p => some (Job.ProofGenerated p)
    | none => none

/-- Serialisation of the proving-service RequestProof. -/
def encodeRequestProof (r : RequestProof) : Json :=
  Json.obj [("job_id", Json.str r.job_id),
            ("job_group_id", encodeOptString r.job_group_id),
            ("start_timestamp", Json.num r.start_timestamp),
            ("end_timestamp", Json.num r.end_timestamp),
            ("twap_start_timestamp", encodeOptI64 r.twap_start_timestamp),
            ("twap_end_timestamp", encodeOptI64 r.twap_end_timestamp),
            ("reserve_price_start_timestamp",
             encodeOptI64 r.reserve_price_start_timestamp),
            ("reserve_price_end_timestamp",
             encodeOptI64 r.reserve_price_end_timestamp),
            ("max_return_start_timestamp",
             encodeOptI64 r.max_return_start_timestamp),
            ("max_return_end_timestamp",
             encodeOptI64 r.max_return_end_timestamp)]

/-- Serialisation of the proving-service ProofGenerated. -/
def encodeProofGenerated (p : ProofGenerated) : Json :=
  Json.obj [("job_id", Json.str p.job_id), ("receipt", Json.str p.receipt.blob)]

/-- Untagged serialisation of the proving-service Job; this is the body that
send_job_to_queue produces. -/
def serializeJob : Job → Json
  | Job.RequestProof r => encodeRequestProof r
  | Job.ProofGenerated p => encodeProofGenerated p

/-- Body of a queue message: either raw text that is not valid JSON, or a
JSON document. serde_json::from_str fails on the former and otherwise
applies the untagged Job deserialiser. -/
inductive Body where
  | text (raw : String)
  | json (j : Json)

/-- QueueMessage of queue/message_queue.rs. -/
structure QueueMessage where
  body : Body
  id : Option String

/-- Parsing of a message body, the from_str call of receive_job. -/
def parseBody : Body → Option Job
  | Body.text _ => none
  | Body.json j => parseJob j

/-- Failure map of the handler: job_id to failure_count. The last_failure
instant of JobProcessingState is only ever written, never read, so it is
dropped from the model. -/
abbrev FailureMap := List (String × Nat)

/-- HashMap::entry(k).or_insert(zero state): inserts a zero count when the
key is absent, otherwise leaves the map unchanged. -/
def entryOrInsertZero (m : FailureMap) (k : String) : FailureMap :=
  match assocLookup m k with
  | some _ => m
  | none => (k, 0) :: m

/-- The failure increment of the error and timeout branches:
entry(k).or_insert(zero).failure_count += 1. -/
def incrementFailure : FailureMap → String → FailureMap
  | [], k => [(k, 1)]
  | (k1, v) :: rest, k =>
    if k1 = k then (k1, v + 1) :: rest else (k1, v) :: incrementFailure rest k

/-- HashMap::remove on the failure map. -/
def removeFailure : FailureMap → String → FailureMap
  | [], _ => []
  | (k1, v) :: rest, k =>
    if k1 = k then removeFailure rest k else (k1, v) :: removeFailure rest k

/-- HashSet::insert on the processing set. -/
def setInsert (s : List String) (k : String) : List String :=
  if k ∈ s then s else k :: s

/-- HashSet::remove on the processing set. -/
def setRemove : List String → String → List String
  | [], _ => []
  | k1 :: rest, k => if k1 = k then setRemove rest k else k1 :: setRemove rest k

/-- Shared mutable state of ProofJobHandler: the processing_jobs set and the
job_failures map. -/
structure HandlerState where
  processing_jobs : List String
  job_failures : FailureMap

/-- The max_failures constant set by ProofJobHandler::new. -/
def max_failures : Nat := 3

/-- Externally visible actions of the worker, in the order they are
performed: queue deletes and sends, the generate call, and the updates to
the two shared containers. -/
inductive Event where
  | generateCall (ranges : ProofTimestampRanges)
  | removeInFlight (job_id : String)
  | clearFailure (job_id : String)
  | recordFailure (job_id : String)
  | sendMsg (body : Json)
  | deleteMsg (m : QueueMessage)

/-- Outcome of the timeout-wrapped generate_proofs_from_data call: success
with a receipt, a provider error, or a timeout. -/
inductive GenResult where
  | ok (receipt : Receipt)
  | err
  | timeout

/-- The snapshot taken at task start: reads the pre-attempt failure count
(inserting a zero record when absent) and decides
should_delete_after_processing by comparing it against max_failures. -/
def snapshotDecision (maxF : Nat) (m : FailureMap) (job_id : String) :
    Bool × FailureMap :=
  (decide (maxF ≤ (assocLookup m job_id).getD 0), entryOrInsertZero m job_id)

/-- The error and timeout branches of the spawned task (they are identical
in proof_job_handler.rs): record the failure, then delete the message iff
the pre-attempt snapshot said so, and clear the failure record iff that
delete succeeded. -/
def taskFail (st : HandlerState) (job_id : String) (msg : QueueMessage)
    (should_delete : Bool) (deleteOk : Bool) : HandlerState × List Event :=
  let failures1 := incrementFailure st.job_failures job_id
  if should_delete then
    if deleteOk then
      (⟨st.processing_jobs, removeFailure failures1 job_id⟩,
       [Event.recordFailure job_id, Event.deleteMsg msg,
        Event.clearFailure job_id])
    else
      (⟨st.processing_jobs, failures1⟩,
       [Event.recordFailure job_id, Event.deleteMsg msg])
  else
    (⟨st.processing_jobs, failures1⟩, [Event.recordFailure job_id])

/-- Everything the spawned task does after generate returns: always remove
the job from the processing set first, then branch on the outcome. On
success the failure record is cleared, the ProofGenerated is sent, and the
message is deleted only when the send succeeded. -/
def taskFinish (st : HandlerState) (job : RequestProof) (msg : QueueMessage)
    (should_delete : Bool) (gen : GenResult) (sendOk deleteOk : Bool) :
    HandlerState × List Event :=
  let st1 : HandlerState := ⟨setRemove st.processing_jobs job.job_id,
                             st.job_failures⟩
  match gen with
  | GenResult.ok receipt =>
    let st2 : HandlerState := ⟨st1.processing_jobs,
                               removeFailure st1.job_failures job.job_id⟩
    let body := serializeJob (Job.ProofGenerated ⟨job.job_id, receipt⟩)
    if sendOk then
      (st2, [Event.removeInFlight job.job_id, Event.clearFailure job.job_id,
             Event.sendMsg body, Event.deleteMsg msg])
    else
      (st2, [Event.removeInFlight job.job_id, Event.clearFailure job.job_id,
             Event.sendMsg body])
  | GenResult.err =>
    let r := taskFail st1 job.job_id msg should_delete deleteOk
    (r.1, Event.removeInFlight job.job_id :: r.2)
  | GenResult.timeout =>
    let r := taskFail st1 job.job_id msg should_delete deleteOk
    (r.1, Event.removeInFlight job.job_id :: r.2)

/-- A whole spawned task: snapshot the pre-attempt failure count, run
generate (the generateCall event), then finish according to the outcome. -/
def taskRun (maxF : Nat) (st : HandlerState) (job : RequestProof)
    (msg : QueueMessage) (gen : GenResult) (sendOk deleteOk : Bool) :
    HandlerState × List Event :=
  let sd := snapshotDecision maxF st.job_failures job.job_id
  let st1 : HandlerState := ⟨st.processing_jobs, sd.2⟩
  let fin := taskFinish st1 job msg sd.1 gen sendOk deleteOk
  (fin.1, Event.generateCall (create_timestamp_ranges job) :: fin.2)

/-- Whether the loop body spawned a task for the message. -/
inductive SpawnOutcome where
  | spawned (job : RequestProof) (msg : QueueMessage)
  | noTask

/-- One iteration of the per-message loop body of receive_job: parse, drop
(with ack) malformed and non-RequestProof messages, skip already-processing
job ids, ack without processing when the provider is disabled, and
otherwise admit the job and spawn its task. -/
def handleMessage (disabled : Bool) (st : HandlerState) (msg : QueueMessage) :
    HandlerState × List Event × SpawnOutcome :=
  match parseBody msg.body with
  | none => (st, [Event.deleteMsg msg], SpawnOutcome.noTask)
  | some (Job.ProofGenerated _) => (st, [Event.deleteMsg msg], SpawnOutcome.noTask)
  | some (Job.RequestProof job) =>
    if job.job_id ∈ st.processing_jobs then
      (st, [], SpawnOutcome.noTask)
    else
      let st1 : HandlerState :=
        ⟨setInsert st.processing_jobs job.job_id, st.job_failures⟩
      if disabled then
        (st1, [Event.deleteMsg msg], SpawnOutcome.noTask)
      else
        (st1, [], SpawnOutcome.spawned job msg)

end PS

namespace PS

/-- Environment choices for one spawned task: how generate resolves and
whether the subsequent queue send and delete calls succeed. -/
structure TaskOracles where
  gen : GenResult
  sendOk : Bool
  deleteOk : Bool

/-- Result of one receive_messages call of the poll loop: a transient
receive error (logged, slept over, and retried) or a batch of messages,
each paired with the oracles its task would see. -/
inductive PollOutcome where
  | recvErr (e : String)
  | batch (msgs : List (QueueMessage × TaskOracles))

/-- A task handed to the JoinSet by the loop, to be joined after the
termination flag is observed. -/
structure SpawnedTask where
  job : RequestProof
  msg : QueueMessage
  oracles : TaskOracles

/-- The for-loop over one received batch: each message goes through
handleMessage; admitted jobs become spawned tasks. -/
def handleBatch (disabled : Bool) (st : HandlerState) :
    List (QueueMessage × TaskOracles) →
    HandlerState × List Event × List SpawnedTask
  | [] => (st, [], [])
  | (m, o) :: rest =>
    let r := handleMessage disabled st m
    let tail := handleBatch disabled r.1 rest
    (tail.1, r.2.1 ++ tail.2.1,
     (match r.2.2 with
      | SpawnOutcome.spawned j msg => [SpawnedTask.mk j msg o]
      | SpawnOutcome.noTask => []) ++ tail.2.2)

/-- The while-loop of receive_job over the iterations that observe the
termination flag as unset: a receive error is swallowed (log, sleep,
continue), a batch is dispatched. -/
def runPolls (disabled : Bool) (st : HandlerState) :
    List PollOutcome → HandlerState × List Event × List SpawnedTask
  | [] => (st, [], [])
  | PollOutcome.recvErr _ :: rest => runPolls disabled st rest
  | PollOutcome.batch msgs :: rest =>
    let r := handleBatch disabled st msgs
    let tail := runPolls disabled r.1 rest
    (tail.1, r.2.1 ++ tail.2.1, r.2.2 ++ tail.2.2)

/-- join_set.join_all(): every spawned task runs to completion. -/
def joinAll (maxF : Nat) (st : HandlerState) :
    List SpawnedTask → HandlerState × List Event
  | [] => (st, [])
  | t :: rest =>
    let r := taskRun maxF st t.job t.msg t.oracles.gen t.oracles.sendOk
      t.oracles.deleteOk
    let tail := joinAll maxF r.1 rest
    (tail.1, r.2 ++ tail.2)

/-- receive_job of ProofJobHandler: poll until the termination flag is set
(the polls list is exactly the iterations that ran before the flag was
observed), then join every spawned task, then return Ok(()). Every queue or
provider error on the way is handled in the body, never propagated. -/
def receive_job (disabled : Bool) (maxF : Nat) (st : HandlerState)
    (polls : List PollOutcome) : Except String Unit × HandlerState × List Event :=
  let r := runPolls disabled st polls
  let joined := joinAll maxF r.1 r.2.2
  (Except.ok (), joined.1, r.2.1 ++ joined.2)

/-- Phase of a live worker task: spawned but not yet snapshotted, or inside
the timeout-wrapped generate call (carrying the snapshot decision). -/
inductive TaskPhase where
  | started
  | generating (should_delete : Bool)

/-- A live task in the interleaved semantics. -/
structure LiveTask where
  job : RequestProof
  msg : QueueMessage
  phase : TaskPhase

/-- Configuration of the interleaved worker: shared state, messages not yet
handled by the loop, live tasks, and the event trace so far. -/
structure Config where
  st : HandlerState
  pending : List QueueMessage
  tasks : List LiveTask
  trace : List Event

/-- Interleaved small-step semantics of receive_job: messages arrive, the
loop handles the next pending message (possibly spawning a task), a task
takes its failure snapshot, or a task's generate call returns (or times
out) and the task finishes. Steps of distinct tasks interleave freely. -/
inductive Step (disabled : Bool) (maxF : Nat) : Config → Config → Prop where
  | arrive (c : Config) (msgs : List QueueMessage) :
      Step disabled maxF c ⟨c.st, c.pending ++ msgs, c.tasks, c.trace⟩
  | handle (c : Config) (m : QueueMessage) (rest : List QueueMessage)
      (hp : c.pending = m :: rest) :
      Step disabled maxF c
        ⟨(handleMessage disabled c.st m).1, rest,
         c.tasks ++
           (match (handleMessage disabled c.st m).2.2 with
            | SpawnOutcome.spawned j msg => [⟨j, msg, TaskPhase.started⟩]
            | SpawnOutcome.noTask => []),
         c.trace ++ (handleMessage disabled c.st m).2.1⟩
  | snapshot (c : Config) (t1 t2 : List LiveTask) (job : RequestProof)
      (msg : QueueMessage)
      (hp : c.tasks = t1 ++ ⟨job, msg, TaskPhase.started⟩ :: t2) :
      Step disabled maxF c
        ⟨⟨c.st.processing_jobs,
          (snapshotDecision maxF c.st.job_failures job.job_id).2⟩,
         c.pending,
         t1 ++ ⟨job, msg, TaskPhase.generating
           (snapshotDecision maxF c.st.job_failures job.job_id).1⟩ :: t2,
         c.trace⟩
  | finish (c : Config) (t1 t2 : List LiveTask) (job : RequestProof)
      (msg : QueueMessage) (sd : Bool) (gen : GenResult) (sendOk deleteOk : Bool)
      (hp : c.tasks = t1 ++ ⟨job, msg, TaskPhase.generating sd⟩ :: t2) :
      Step disabled maxF c
        ⟨(taskFinish c.st job msg sd gen sendOk deleteOk).1,
         c.pending,
         t1 ++ t2,
         c.trace ++ Event.generateCall (create_timestamp_ranges job) ::
           (taskFinish c.st job msg sd gen sendOk deleteOk).2⟩

/-- Initial configuration of a fresh worker. -/
def initConfig : Config := ⟨⟨[], []⟩, [], [], []⟩

/-- Configurations the worker can reach from a fresh start. -/
def Reachable (disabled : Bool) (maxF : Nat) (c : Config) : Prop :=
  Relation.ReflTransGen (Step disabled maxF) initConfig c

/-- Job ids of the live tasks. -/
def liveIds (c : Config) : List String := c.tasks.map (fun t => t.job.job_id)

/-- The in-flight invariant: live task ids are pairwise distinct and every
live task still holds its reservation in processing_jobs. -/
def InFlightInv (c : Config) : Prop :=
  (liveIds c).Nodup ∧ ∀ t ∈ c.tasks, t.job.job_id ∈ c.st.processing_jobs

/-- Whether a live task is inside its generate call. -/
def isGenerating : TaskPhase → Bool
  | TaskPhase.started => false
  | TaskPhase.generating _ => true

end PS

namespace PS

theorem assocLookup_entryOrInsertZero (m : FailureMap) (k : String) :
    assocLookup (entryOrInsertZero m k) k = some ((assocLookup m k).getD 0) := by
  unfold entryOrInsertZero
  cases h : assocLookup m k with
  | none => simp [assocLookup, h]
  | some v => simp [h]

theorem assocLookup_incrementFailure (m : FailureMap) (k : String) :
    assocLookup (incrementFailure m k) k
      = some ((assocLookup m k).getD 0 + 1) := by
  induction m with
  | nil => simp [incrementFailure, assocLookup]
  | cons p rest ih =>
    obtain ⟨k1, v⟩ := p
    by_cases h : k1 = k
    · subst h
      simp [incrementFailure, assocLookup]
    · simp [incrementFailure, assocLookup, h, ih]

theorem assocLookup_removeFailure (m : FailureMap) (k : String) :
    assocLookup (removeFailure m k) k = none := by
  induction m with
  | nil => simp [removeFailure, assocLookup]
  | cons p rest ih =>
    obtain ⟨k1, v⟩ := p
    by_cases h : k1 = k
    · simp [removeFailure, h, ih]
    · simp [removeFailure, assocLookup, h, ih]

theorem mem_setInsert (s : List String) (k a : String) :
    a ∈ setInsert s k ↔ a = k ∨ a ∈ s := by
  unfold setInsert
  by_cases h : k ∈ s
  · simp [h]
    intro ha
    subst ha
    exact h
  · simp [h]

theorem mem_setRemove (s : List String) (k a : String) :
    a ∈ setRemove s k ↔ a ∈ s ∧ a ≠ k := by
  induction s with
  | nil => simp [setRemove]
  | cons x rest ih =>
    by_cases h : x = k
    · subst h
      rw [setRemove, if_pos rfl]
      simp only [ih, List.mem_cons]
      constructor
      · rintro ⟨hm, hk⟩
        exact ⟨Or.inr hm, hk⟩
      · rintro ⟨hx | hm, hk⟩
        · exact absurd hx hk
        · exact ⟨hm, hk⟩
    · simp only [setRemove, if_neg h, List.mem_cons, ih]
      constructor
      · rintro (hx | ⟨hm, hk⟩)
        · exact ⟨Or.inl hx, fun hak => h (hx ▸ hak)⟩
        · exact ⟨Or.inr hm, hk⟩
      · rintro ⟨hx | hm, hk⟩
        · exact Or.inl hx
        · exact Or.inr ⟨hm, hk⟩

theorem taskFinish_processing (st : HandlerState) (job : RequestProof)
    (msg : QueueMessage) (sd : Bool) (gen : GenResult) (sendOk deleteOk : Bool) :
    (taskFinish st job msg sd gen sendOk deleteOk).1.processing_jobs
      = setRemove st.processing_jobs job.job_id := by
  cases gen <;> simp [taskFinish, taskFail] <;> split_ifs <;> rfl

end PS

/-- C10: create_timestamp_ranges takes each of the six optional sub-range
endpoints independently: an absent endpoint defaults to the request's outer
start or end timestamp, a present endpoint is passed through unchanged. -/
theorem claim_C10_timestamp_range_defaults (job : PS.RequestProof) (v : Int) :
    ((job.twap_start_timestamp = none →
        (PS.create_timestamp_ranges job).twap.1 = job.start_timestamp) ∧
     (job.twap_start_timestamp = some v →
        (PS.create_timestamp_ranges job).twap.1 = v)) ∧
    ((job.twap_end_timestamp = none →
        (PS.create_timestamp_ranges job).twap.2 = job.end_timestamp) ∧
     (job.twap_end_timestamp = some v →
        (PS.create_timestamp_ranges job).twap.2 = v)) ∧
    ((job.reserve_price_start_timestamp = none →
        (PS.create_timestamp_ranges job).reserve_price.1 = job.start_timestamp) ∧
     (job.reserve_price_start_timestamp = some v →
        (PS.create_timestamp_ranges job).reserve_price.1 = v)) ∧
    ((job.reserve_price_end_timestamp = none →
        (PS.create_timestamp_ranges job).reserve_price.2 = job.end_timestamp) ∧
     (job.reserve_price_end_timestamp = some v →
        (PS.create_timestamp_ranges job).reserve_price.2 = v)) ∧
    ((job.max_return_start_timestamp = none →
        (PS.create_timestamp_ranges job).max_return.1 = job.start_timestamp) ∧
     (job.max_return_start_timestamp = some v →
        (PS.create_timestamp_ranges job).max_return.1 = v)) ∧
    ((job.max_return_end_timestamp = none →
        (PS.create_timestamp_ranges job).max_return.2 = job.end_timestamp) ∧
     (job.max_return_end_timestamp = some v →
        (PS.create_timestamp_ranges job).max_return.2 = v)) := by
  refine ⟨⟨?_, ?_⟩, ⟨?_, ?_⟩, ⟨?_, ?_⟩, ⟨?_, ?_⟩, ⟨?_, ?_⟩, ⟨?_, ?_⟩⟩ <;>
    intro h <;>
    simp [PS.create_timestamp_ranges, PS.ProofTimestampRanges.new, h]

/-- C10 witness: a request with a mix of absent and present sub-range
endpoints, evaluated at concrete values. -/
theorem claim_C10_timestamp_range_defaults_witness :
    (PS.create_timestamp_ranges
        ⟨"a", none, 100, 200, none, some 7, some 8, none, none, some 9⟩).twap.1
      = 100 ∧
    (PS.create_timestamp_ranges
        ⟨"a", none, 100, 200, none, some 7, some 8, none, none, some 9⟩).twap.2
      = 7 ∧
    (PS.create_timestamp_ranges
        ⟨"a", none, 100, 200, none, some 7, some 8, none, none,
         some 9⟩).reserve_price.1 = 8 ∧
    (PS.create_timestamp_ranges
        ⟨"a", none, 100, 200, none, some 7, some 8, none, none,
         some 9⟩).reserve_price.2 = 200 ∧
    (PS.create_timestamp_ranges
        ⟨"a", none, 100, 200, none, some 7, some 8, none, none,
         some 9⟩).max_return.1 = 100 ∧
    (PS.create_timestamp_ranges
        ⟨"a", none, 100, 200, none, some 7, some 8, none, none,
         some 9⟩).max_return.2 = 9 := by
  refine ⟨?_, ?_, ?_, ?_, ?_, ?_⟩
  · exact (claim_C10_timestamp_range_defaults
      ⟨"a", none, 100, 200, none, some 7, some 8, none, none, some 9⟩ 7).1.1 rfl
  · exact (claim_C10_timestamp_range_defaults
      ⟨"a", none, 100, 200, none, some 7, some 8, none, none, some 9⟩ 7).2.1.2 rfl
  · exact (claim_C10_timestamp_range_defaults
      ⟨"a", none, 100, 200, none, some 7, some 8, none, none,
       some 9⟩ 8).2.2.1.2 rfl
  · exact (claim_C10_timestamp_range_defaults
      ⟨"a", none, 100, 200, none, some 7, some 8, none, none,
       some 9⟩ 8).2.2.2.1.1 rfl
  · exact (claim_C10_timestamp_range_defaults
      ⟨"a", none, 100, 200, none, some 7, some 8, none, none,
       some 9⟩ 9).2.2.2.2.1.1 rfl
  · exact (claim_C10_timestamp_range_defaults
      ⟨"a", none, 100, 200, none, some 7, some 8, none, none,
       some 9⟩ 9).2.2.2.2.2.2 rfl

/-- C2: on a successfully generated proof, the ProofGenerated message is
sent before any delete of the originating message, and the originating
message is deleted exactly when the send returned success. -/
theorem claim_C2_publish_before_delete (st : PS.HandlerState)
    (job : PS.RequestProof) (msg : PS.QueueMessage) (receipt : PS.Receipt)
    (sendOk deleteOk : Bool) :
    (∃ l1 l2,
      (PS.taskRun PS.max_failures st job msg (PS.GenResult.ok receipt) sendOk
          deleteOk).2 = l1 ++ l2 ∧
      PS.Event.sendMsg (PS.serializeJob (PS.Job.ProofGenerated
        ⟨job.job_id, receipt⟩)) ∈ l1 ∧
      ∀ m2 : PS.QueueMessage, PS.Event.deleteMsg m2 ∉ l1) ∧
    ((PS.Event.deleteMsg msg ∈
        (PS.taskRun PS.max_failures st job msg (PS.GenResult.ok receipt) sendOk
          deleteOk).2) ↔ sendOk = true) := by
  cases sendOk
  · constructor
    · refine ⟨[PS.Event.generateCall (PS.create_timestamp_ranges job),
        PS.Event.removeInFlight job.job_id, PS.Event.clearFailure job.job_id,
        PS.Event.sendMsg (PS.serializeJob (PS.Job.ProofGenerated
          ⟨job.job_id, receipt⟩))], [], rfl, by simp, by simp⟩
    · simp [PS.taskRun, PS.taskFinish, PS.snapshotDecision]
  · constructor
    · refine ⟨[PS.Event.generateCall (PS.create_timestamp_ranges job),
        PS.Event.removeInFlight job.job_id, PS.Event.clearFailure job.job_id,
        PS.Event.sendMsg (PS.serializeJob (PS.Job.ProofGenerated
          ⟨job.job_id, receipt⟩))],
        [PS.Event.deleteMsg msg], rfl, by simp, by simp⟩
    · simp [PS.taskRun, PS.taskFinish, PS.snapshotDecision]

/-- C2 witness: the success path evaluated on a concrete job and message. -/
theorem claim_C2_publish_before_delete_witness :
    (∃ l1 l2,
      (PS.taskRun PS.max_failures ⟨[], []⟩
          ⟨"j", none, 1, 2, none, none, none, none, none, none⟩
          ⟨PS.Body.text "x", none⟩ (PS.GenResult.ok ⟨"r"⟩) true true).2
        = l1 ++ l2 ∧
      PS.Event.sendMsg (PS.serializeJob (PS.Job.ProofGenerated
        ⟨"j", ⟨"r"⟩⟩)) ∈ l1 ∧
      ∀ m2 : PS.QueueMessage, PS.Event.deleteMsg m2 ∉ l1) ∧
    (PS.Event.deleteMsg ⟨PS.Body.text "x", none⟩ ∈
      (PS.taskRun PS.max_failures ⟨[], []⟩
          ⟨"j", none, 1, 2, none, none, none, none, none, none⟩
          ⟨PS.Body.text "x", none⟩ (PS.GenResult.ok ⟨"r"⟩) true true).2) := by
  have h := claim_C2_publish_before_delete ⟨[], []⟩
    ⟨"j", none, 1, 2, none, none, none, none, none, none⟩
    ⟨PS.Body.text "x", none⟩ ⟨"r"⟩ true true
  exact ⟨h.1, h.2.mpr rfl⟩

/-- C7: on generation success the job's failure record is cleared before the
ProofGenerated message is sent, and when the send then fails the message is
not deleted while the failure count is already reset to none. -/
theorem claim_C7_clear_before_send (st : PS.HandlerState)
    (job : PS.RequestProof) (msg : PS.QueueMessage) (receipt : PS.Receipt)
    (deleteOk : Bool) :
    (∀ sendOk : Bool, ∃ l1 l2,
      (PS.taskRun PS.max_failures st job msg (PS.GenResult.ok receipt) sendOk
          deleteOk).2
        = l1 ++ PS.Event.sendMsg (PS.serializeJob (PS.Job.ProofGenerated
            ⟨job.job_id, receipt⟩)) :: l2 ∧
      PS.Event.clearFailure job.job_id ∈ l1) ∧
    (assocLookup (PS.taskRun PS.max_failures st job msg
        (PS.GenResult.ok receipt) false deleteOk).1.job_failures job.job_id
      = none) ∧
    (∀ m2 : PS.QueueMessage, PS.Event.deleteMsg m2 ∉
      (PS.taskRun PS.max_failures st job msg (PS.GenResult.ok receipt) false
        deleteOk).2) := by
  refine ⟨?_, ?_, ?_⟩
  · intro sendOk
    cases sendOk
    · exact ⟨[PS.Event.generateCall (PS.create_timestamp_ranges job),
        PS.Event.removeInFlight job.job_id, PS.Event.clearFailure job.job_id],
        [], rfl, by simp⟩
    · exact ⟨[PS.Event.generateCall (PS.create_timestamp_ranges job),
        PS.Event.removeInFlight job.job_id, PS.Event.clearFailure job.job_id],
        [PS.Event.deleteMsg msg], rfl, by simp⟩
  · simp [PS.taskRun, PS.taskFinish, PS.snapshotDecision,
      PS.assocLookup_removeFailure]
  · simp [PS.taskRun, PS.taskFinish, PS.snapshotDecision]

/-- C7 witness: the send-failure path evaluated on a concrete job whose
failure count was nonzero before the attempt. -/
theorem claim_C7_clear_before_send_witness :
    (∃ l1 l2,
      (PS.taskRun PS.max_failures ⟨["j"], [("j", 2)]⟩
          ⟨"j", none, 1, 2, none, none, none, none, none, none⟩
          ⟨PS.Body.text "x", none⟩ (PS.GenResult.ok ⟨"r"⟩) false true).2
        = l1 ++ PS.Event.sendMsg (PS.serializeJob (PS.Job.ProofGenerated
            ⟨"j", ⟨"r"⟩⟩)) :: l2 ∧
      PS.Event.clearFailure "j" ∈ l1) ∧
    assocLookup (PS.taskRun PS.max_failures ⟨["j"], [("j", 2)]⟩
        ⟨"j", none, 1, 2, none, none, none, none, none, none⟩
        ⟨PS.Body.text "x", none⟩ (PS.GenResult.ok ⟨"r"⟩) false
        true).1.job_failures "j" = none ∧
    PS.Event.deleteMsg ⟨PS.Body.text "x", none⟩ ∉
      (PS.taskRun PS.max_failures ⟨["j"], [("j", 2)]⟩
        ⟨"j", none, 1, 2, none, none, none, none, none, none⟩
        ⟨PS.Body.text "x", none⟩ (PS.GenResult.ok ⟨"r"⟩) false true).2 := by
  have h := claim_C7_clear_before_send ⟨["j"], [("j", 2)]⟩
    ⟨"j", none, 1, 2, none, none, none, none, none, none⟩
    ⟨PS.Body.text "x", none⟩ ⟨"r"⟩ true
  exact ⟨h.1 false, h.2.1, h.2.2 ⟨PS.Body.text "x", none⟩⟩

/-- C1: for a task whose generate call errors or times out (queue delete
succeeding), the failure count is incremented, and the message is deleted
with the failure record cleared exactly when the pre-attempt failure count,
snapshotted at task start with 0 for a missing record, had reached
max_failures; below the threshold no delete is issued. -/
theorem claim_C1_force_ack_policy (st : PS.HandlerState)
    (job : PS.RequestProof) (msg : PS.QueueMessage) (sendOk : Bool) :
    ((PS.Event.deleteMsg msg ∈
        (PS.taskRun PS.max_failures st job msg PS.GenResult.err sendOk
          true).2) ↔
      PS.max_failures ≤ (assocLookup st.job_failures job.job_id).getD 0) ∧
    (assocLookup (PS.taskRun PS.max_failures st job msg PS.GenResult.err
        sendOk true).1.job_failures job.job_id
      = if PS.max_failures ≤ (assocLookup st.job_failures job.job_id).getD 0
        then none
        else some ((assocLookup st.job_failures job.job_id).getD 0 + 1)) ∧
    ((PS.Event.deleteMsg msg ∈
        (PS.taskRun PS.max_failures st job msg PS.GenResult.timeout sendOk
          true).2) ↔
      PS.max_failures ≤ (assocLookup st.job_failures job.job_id).getD 0) ∧
    (assocLookup (PS.taskRun PS.max_failures st job msg PS.GenResult.timeout
        sendOk true).1.job_failures job.job_id
      = if PS.max_failures ≤ (assocLookup st.job_failures job.job_id).getD 0
        then none
        else some ((assocLookup st.job_failures job.job_id).getD 0 + 1)) := by
  by_cases h : PS.max_failures ≤ (assocLookup st.job_failures job.job_id).getD 0
  · simp [PS.taskRun, PS.taskFinish, PS.taskFail, PS.snapshotDecision, h,
      PS.assocLookup_removeFailure]
  · simp [PS.taskRun, PS.taskFinish, PS.taskFail, PS.snapshotDecision, h,
      PS.assocLookup_incrementFailure, PS.assocLookup_entryOrInsertZero]

/-- C1 witness: one job at the threshold (three prior failures, message
deleted, record cleared) and one fresh job (no delete, count becomes one),
both evaluated concretely. -/
theorem claim_C1_force_ack_policy_witness :
    (PS.Event.deleteMsg ⟨PS.Body.text "x", none⟩ ∈
      (PS.taskRun PS.max_failures ⟨["j"], [("j", 3)]⟩
        ⟨"j", none, 1, 2, none, none, none, none, none, none⟩
        ⟨PS.Body.text "x", none⟩ PS.GenResult.err true true).2) ∧
    assocLookup (PS.taskRun PS.max_failures ⟨["j"], [("j", 3)]⟩
        ⟨"j", none, 1, 2, none, none, none, none, none, none⟩
        ⟨PS.Body.text "x", none⟩ PS.GenResult.err true
        true).1.job_failures "j" = none ∧
    assocLookup (PS.taskRun PS.max_failures ⟨["k"], []⟩
        ⟨"k", none, 1, 2, none, none, none, none, none, none⟩
        ⟨PS.Body.text "y", none⟩ PS.GenResult.timeout true
        true).1.job_failures "k" = some 1 := by
  have h1 := claim_C1_force_ack_policy ⟨["j"], [("j", 3)]⟩
    ⟨"j", none, 1, 2, none, none, none, none, none, none⟩
    ⟨PS.Body.text "x", none⟩ true
  have h2 := claim_C1_force_ack_policy ⟨["k"], []⟩
    ⟨"k", none, 1, 2, none, none, none, none, none, none⟩
    ⟨PS.Body.text "y", none⟩ true
  refine ⟨h1.1.mpr (by decide), h1.2.1.trans (if_pos (by decide)), ?_⟩
  exact h2.2.2.2.trans (by rw [if_neg (by decide)]; rfl)

/-- C6: a message whose body does not parse as a Job, and a message parsing
as the ProofGenerated variant, are both deleted from the queue with no task
spawned, no failure recorded and no in-flight change. -/
theorem claim_C6_drop_unparsable_and_routing (disabled : Bool)
    (st : PS.HandlerState) (msg : PS.QueueMessage) :
    (PS.parseBody msg.body = none →
      PS.handleMessage disabled st msg
        = (st, [PS.Event.deleteMsg msg], PS.SpawnOutcome.noTask)) ∧
    (∀ p : PS.ProofGenerated,
      PS.parseBody msg.body = some (PS.Job.ProofGenerated p) →
      PS.handleMessage disabled st msg
        = (st, [PS.Event.deleteMsg msg], PS.SpawnOutcome.noTask)) := by
  constructor
  · intro h
    simp [PS.handleMessage, h]
  · intro p h
    simp [PS.handleMessage, h]

/-- C6 witness: a raw non-JSON body and a concrete ProofGenerated body, both
acknowledged and dropped. -/
theorem claim_C6_drop_unparsable_and_routing_witness :
    PS.handleMessage true ⟨[], []⟩ ⟨PS.Body.text "junk", none⟩
      = (⟨[], []⟩, [PS.Event.deleteMsg ⟨PS.Body.text "junk", none⟩],
         PS.SpawnOutcome.noTask) ∧
    PS.handleMessage false ⟨[], []⟩
        ⟨PS.Body.json (Json.obj [("job_id", Json.str "g"),
          ("receipt", Json.str "r")]), none⟩
      = (⟨[], []⟩,
         [PS.Event.deleteMsg ⟨PS.Body.json (Json.obj [("job_id", Json.str "g"),
           ("receipt", Json.str "r")]), none⟩],
         PS.SpawnOutcome.noTask) := by
  constructor
  · exact (claim_C6_drop_unparsable_and_routing true ⟨[], []⟩
      ⟨PS.Body.text "junk", none⟩).1 rfl
  · exact (claim_C6_drop_unparsable_and_routing false ⟨[], []⟩
      ⟨PS.Body.json (Json.obj [("job_id", Json.str "g"),
        ("receipt", Json.str "r")]), none⟩).2 ⟨"g", ⟨"r"⟩⟩ (by decide)

/-- C4 counterexample: with the provider disabled, handling an admitted
RequestProof deletes the message but leaves its job_id in the in-flight
set, and a later message with the same job_id is skipped, not admitted:
the claim's removal from the in-flight set does not happen. -/
theorem claim_C4_counterexample :
    PS.handleMessage true ⟨[], []⟩
        ⟨PS.Body.json (Json.obj [("job_id", Json.str "j"),
          ("start_timestamp", Json.num 1), ("end_timestamp", Json.num 2)]),
         some "id1"⟩
      = (⟨["j"], []⟩,
         [PS.Event.deleteMsg ⟨PS.Body.json (Json.obj [("job_id", Json.str "j"),
           ("start_timestamp", Json.num 1), ("end_timestamp", Json.num 2)]),
          some "id1"⟩],
         PS.SpawnOutcome.noTask) ∧
    "j" ∈ (PS.handleMessage true ⟨[], []⟩
        ⟨PS.Body.json (Json.obj [("job_id", Json.str "j"),
          ("start_timestamp", Json.num 1), ("end_timestamp", Json.num 2)]),
         some "id1"⟩).1.processing_jobs ∧
    PS.handleMessage true ⟨["j"], []⟩
        ⟨PS.Body.json (Json.obj [("job_id", Json.str "j"),
          ("start_timestamp", Json.num 1), ("end_timestamp", Json.num 2)]),
         some "id2"⟩
      = (⟨["j"], []⟩, [], PS.SpawnOutcome.noTask) := by
  have h1 : PS.handleMessage true ⟨[], []⟩
      ⟨PS.Body.json (Json.obj [("job_id", Json.str "j"),
        ("start_timestamp", Json.num 1), ("end_timestamp", Json.num 2)]),
       some "id1"⟩
      = (⟨["j"], []⟩,
         [PS.Event.deleteMsg ⟨PS.Body.json (Json.obj [("job_id", Json.str "j"),
           ("start_timestamp", Json.num 1), ("end_timestamp", Json.num 2)]),
          some "id1"⟩],
         PS.SpawnOutcome.noTask) := rfl
  refine ⟨h1, ?_, rfl⟩
  rw [h1]
  simp

/-- C4 amended: when the provider reports disabled, an admitted RequestProof
message is deleted without invoking generate and with no task spawned, but
its job_id stays in the in-flight set, so a later message with the same
job_id is skipped rather than admitted. -/
theorem claim_C4_disabled_ack_keeps_reservation (st : PS.HandlerState)
    (msg : PS.QueueMessage) (job : PS.RequestProof)
    (hparse : PS.parseBody msg.body = some (PS.Job.RequestProof job))
    (hnot : job.job_id ∉ st.processing_jobs) :
    PS.handleMessage true st msg
      = (⟨job.job_id :: st.processing_jobs, st.job_failures⟩,
         [PS.Event.deleteMsg msg], PS.SpawnOutcome.noTask) ∧
    job.job_id ∈ (PS.handleMessage true st msg).1.processing_jobs := by
  have hins : PS.setInsert st.processing_jobs job.job_id
      = job.job_id :: st.processing_jobs := by
    unfold PS.setInsert
    rw [if_neg hnot]
  constructor
  · simp [PS.handleMessage, hparse, hnot, hins]
  · simp [PS.handleMessage, hparse, hnot, hins]

/-- C4 amended witness: the disabled path evaluated on a concrete message. -/
theorem claim_C4_disabled_ack_keeps_reservation_witness :
    PS.handleMessage true ⟨[], []⟩
        ⟨PS.Body.json (Json.obj [("job_id", Json.str "j"),
          ("start_timestamp", Json.num 1), ("end_timestamp", Json.num 2)]),
         some "id1"⟩
      = (⟨["j"], []⟩,
         [PS.Event.deleteMsg ⟨PS.Body.json (Json.obj [("job_id", Json.str "j"),
           ("start_timestamp", Json.num 1), ("end_timestamp", Json.num 2)]),
          some "id1"⟩],
         PS.SpawnOutcome.noTask) ∧
    "j" ∈ (PS.handleMessage true ⟨[], []⟩
        ⟨PS.Body.json (Json.obj [("job_id", Json.str "j"),
          ("start_timestamp", Json.num 1), ("end_timestamp", Json.num 2)]),
         some "id1"⟩).1.processing_jobs := by
  exact claim_C4_disabled_ack_keeps_reservation ⟨[], []⟩
    ⟨PS.Body.json (Json.obj [("job_id", Json.str "j"),
      ("start_timestamp", Json.num 1), ("end_timestamp", Json.num 2)]),
     some "id1"⟩
    ⟨"j", none, 1, 2, none, none, none, none, none, none⟩ (by decide)
    (by simp)

/-- C9: serialising either Job variant and parsing the result yields the
original value (timestamps being i64 in the source, the embedded Int fields
carry explicit i64 range side conditions). -/
theorem claim_C9_round_trip :
    (∀ r : MH.RequestProof, fitsI64 r.start_timestamp = true →
      fitsI64 r.end_timestamp = true →
      MH.parseJob (MH.serializeJob (MH.Job.RequestProof r))
        = some (MH.Job.RequestProof r)) ∧
    (∀ p : MH.ProofGenerated,
      MH.parseJob (MH.serializeJob (MH.Job.ProofGenerated p))
        = some (MH.Job.ProofGenerated p)) := by
  constructor
  · intro r h1 h2
    obtain ⟨jid, grp, s, e⟩ := r
    simp only [MH.serializeJob] at h1 h2 ⊢
    cases grp <;>
      simp [MH.encodeRequestProof, MH.parseJob, MH.decodeRequestProof,
        MH.decodeRequestProofFields, assocLookup, decodeString,
        decodeOptString, decodeI64, encodeOptString, h1, h2]
  · intro p
    obtain ⟨jid, ⟨blob⟩⟩ := p
    simp [MH.serializeJob, MH.encodeProofGenerated, MH.parseJob,
      MH.decodeRequestProof, MH.decodeRequestProofFields,
      MH.decodeProofGenerated, MH.decodeProofGeneratedFields, MH.decodeReceipt,
      assocLookup, decodeString, decodeOptString, decodeI64]

/-- C9 witness: both variants round-tripped at concrete values. -/
theorem claim_C9_round_trip_witness :
    (fitsI64 1 = true ∧ fitsI64 2 = true ∧
      MH.parseJob (MH.serializeJob (MH.Job.RequestProof ⟨"a", some "g", 1, 2⟩))
        = some (MH.Job.RequestProof ⟨"a", some "g", 1, 2⟩)) ∧
    MH.parseJob (MH.serializeJob (MH.Job.ProofGenerated ⟨"b", ⟨"r"⟩⟩))
      = some (MH.Job.ProofGenerated ⟨"b", ⟨"r"⟩⟩) := by
  refine ⟨⟨by decide, by decide, ?_⟩, ?_⟩
  · exact claim_C9_round_trip.1 ⟨"a", some "g", 1, 2⟩ (by decide) (by decide)
  · exact claim_C9_round_trip.2 ⟨"b", ⟨"r"⟩⟩

/-- C8 counterexample: a body containing the field extra_field, which
belongs to neither variant, still deserialises (as RequestProof): serde
without a deny-unknown-fields attribute ignores unknown fields, so the
message is not classified as malformed. -/
theorem claim_C8_counterexample :
    "extra_field" ∉ MH.requestProofFieldNames ∧
    "extra_field" ∉ MH.proofGeneratedFieldNames ∧
    MH.parseJob (Json.obj [("job_id", Json.str "a"),
      ("job_group_id", Json.null), ("start_timestamp", Json.num 1),
      ("end_timestamp", Json.num 2), ("extra_field", Json.bool true)])
      = some (MH.Job.RequestProof ⟨"a", none, 1, 2⟩) := by
  exact ⟨by decide, by decide, by decide⟩

theorem assocLookup_append_not {β : Type} (fs : List (String × β)) (n k : String)
    (v : β) (h : k ≠ n) :
    assocLookup (fs ++ [(n, v)]) k = assocLookup fs k := by
  induction fs with
  | nil =>
    simp [assocLookup]
    intro hk
    exact absurd hk.symm h
  | cons p rest ih =>
    obtain ⟨k1, v1⟩ := p
    by_cases hk : k1 = k
    · simp [assocLookup, hk]
    · simp [assocLookup, hk, ih]

/-- C8 amended: fields belonging to neither variant are ignored, not
rejected: appending such a field to a message body leaves the parse result
unchanged, so the message is malformed only when the declared fields of
neither variant match. -/
theorem claim_C8_unknown_fields_ignored (fs : List (String × Json))
    (n : String) (v : Json) (h1 : n ∉ MH.requestProofFieldNames)
    (h2 : n ∉ MH.proofGeneratedFieldNames) :
    MH.parseJob (Json.obj (fs ++ [(n, v)])) = MH.parseJob (Json.obj fs) := by
  simp only [MH.requestProofFieldNames, List.mem_cons, List.mem_singleton,
    not_or] at h1
  simp only [MH.proofGeneratedFieldNames, List.mem_cons, List.mem_singleton,
    not_or] at h2
  obtain ⟨n1, n2, n3, n4, -⟩ := h1
  obtain ⟨-, n5, -⟩ := h2
  have l1 := assocLookup_append_not fs n "job_id" v (fun h => n1 h.symm)
  have l2 := assocLookup_append_not fs n "job_group_id" v (fun h => n2 h.symm)
  have l3 := assocLookup_append_not fs n "start_timestamp" v (fun h => n3 h.symm)
  have l4 := assocLookup_append_not fs n "end_timestamp" v (fun h => n4 h.symm)
  have l5 := assocLookup_append_not fs n "receipt" v (fun h => n5 h.symm)
  simp only [MH.parseJob, MH.decodeRequestProof, MH.decodeRequestProofFields,
    MH.decodeProofGenerated, MH.decodeProofGeneratedFields, l1, l2, l3, l4, l5]

/-- C8 amended witness: appending an unknown field to a concrete body leaves
its parse unchanged. -/
theorem claim_C8_unknown_fields_ignored_witness :
    MH.parseJob (Json.obj ([("job_id", Json.str "a")] ++ [("zzz", Json.null)]))
      = MH.parseJob (Json.obj [("job_id", Json.str "a")]) := by
  exact claim_C8_unknown_fields_ignored [("job_id", Json.str "a")] "zzz"
    Json.null (by decide) (by decide)

namespace PS

/-- Whether an event is a generate call. -/
def isGenerateCall : Event → Bool
  | Event.generateCall _ => true
  | _ => false

theorem taskRun_one_generate (maxF : Nat) (st : HandlerState)
    (job : RequestProof) (msg : QueueMessage) (gen : GenResult)
    (sendOk deleteOk : Bool) :
    ((taskRun maxF st job msg gen sendOk deleteOk).2.countP isGenerateCall)
      = 1 := by
  cases gen <;>
    simp [taskRun, taskFinish, taskFail, snapshotDecision, isGenerateCall] <;>
    split_ifs <;>
    simp [List.countP_cons, isGenerateCall]

theorem joinAll_generate_count (maxF : Nat) (st : HandlerState)
    (tasks : List SpawnedTask) :
    ((joinAll maxF st tasks).2.countP isGenerateCall) = tasks.length := by
  induction tasks generalizing st with
  | nil => simp [joinAll]
  | cons t rest ih =>
    simp [joinAll, List.countP_append, taskRun_one_generate, ih]
    omega

theorem handleMessage_no_generate (disabled : Bool) (st : HandlerState)
    (msg : QueueMessage) :
    ((handleMessage disabled st msg).2.1.countP isGenerateCall) = 0 := by
  unfold handleMessage
  cases parseBody msg.body with
  | none => simp [isGenerateCall]
  | some j =>
    cases j with
    | ProofGenerated p => simp [isGenerateCall]
    | RequestProof job =>
      by_cases h : job.job_id ∈ st.processing_jobs <;>
        cases disabled <;> simp [h, isGenerateCall]

theorem handleBatch_no_generate (disabled : Bool) (st : HandlerState)
    (msgs : List (QueueMessage × TaskOracles)) :
    ((handleBatch disabled st msgs).2.1.countP isGenerateCall) = 0 := by
  induction msgs generalizing st with
  | nil => simp [handleBatch]
  | cons m rest ih =>
    simp [handleBatch, List.countP_append, handleMessage_no_generate, ih]

theorem runPolls_no_generate (disabled : Bool) (st : HandlerState)
    (polls : List PollOutcome) :
    ((runPolls disabled st polls).2.1.countP isGenerateCall) = 0 := by
  induction polls generalizing st with
  | nil => simp [runPolls]
  | cons p rest ih =>
    cases p with
    | recvErr e => simp [runPolls, ih]
    | batch msgs =>
      simp [runPolls, List.countP_append, handleBatch_no_generate, ih]

end PS

/-- C5: once the termination flag exits the poll loop (the polls list is
exactly the iterations that observed the flag unset), receive_job joins
every already-spawned task, performing exactly one generate call per
spawned task and none in the loop itself, and returns success for every
queue and provider behaviour. -/
theorem claim_C5_clean_termination (disabled : Bool) (maxF : Nat)
    (st : PS.HandlerState) (polls : List PS.PollOutcome) :
    (PS.receive_job disabled maxF st polls).1 = Except.ok () ∧
    ((PS.receive_job disabled maxF st polls).2.2.countP PS.isGenerateCall)
      = (PS.runPolls disabled st polls).2.2.length := by
  constructor
  · rfl
  · simp [PS.receive_job, List.countP_append, PS.runPolls_no_generate,
      PS.joinAll_generate_count]

/-- C5 witness: a run with one receive error, one admitted job and one
malformed message returns success and performs one generate call. -/
theorem claim_C5_clean_termination_witness :
    (PS.receive_job false 3 ⟨[], []⟩
      [PS.PollOutcome.recvErr "net",
       PS.PollOutcome.batch
         [(⟨PS.Body.json (Json.obj [("job_id", Json.str "j"),
             ("start_timestamp", Json.num 1), ("end_timestamp", Json.num 2)]),
           some "id1"⟩, ⟨PS.GenResult.err, true, true⟩),
          (⟨PS.Body.text "junk", none⟩,
           ⟨PS.GenResult.ok ⟨"r"⟩, true, true⟩)]]).1 = Except.ok () ∧
    ((PS.receive_job false 3 ⟨[], []⟩
      [PS.PollOutcome.recvErr "net",
       PS.PollOutcome.batch
         [(⟨PS.Body.json (Json.obj [("job_id", Json.str "j"),
             ("start_timestamp", Json.num 1), ("end_timestamp", Json.num 2)]),
           some "id1"⟩, ⟨PS.GenResult.err, true, true⟩),
          (⟨PS.Body.text "junk", none⟩,
           ⟨PS.GenResult.ok ⟨"r"⟩, true, true⟩)]]).2.2.countP
        PS.isGenerateCall)
      = (PS.runPolls false ⟨[], []⟩
      [PS.PollOutcome.recvErr "net",
       PS.PollOutcome.batch
         [(⟨PS.Body.json (Json.obj [("job_id", Json.str "j"),
             ("start_timestamp", Json.num 1), ("end_timestamp", Json.num 2)]),
           some "id1"⟩, ⟨PS.GenResult.err, true, true⟩),
          (⟨PS.Body.text "junk", none⟩,
           ⟨PS.GenResult.ok ⟨"r"⟩, true, true⟩)]]).2.2.length := by
  exact claim_C5_clean_termination false 3 ⟨[], []⟩
    [PS.PollOutcome.recvErr "net",
     PS.PollOutcome.batch
       [(⟨PS.Body.json (Json.obj [("job_id", Json.str "j"),
           ("start_timestamp", Json.num 1), ("end_timestamp", Json.num 2)]),
         some "id1"⟩, ⟨PS.GenResult.err, true, true⟩),
        (⟨PS.Body.text "junk", none⟩,
         ⟨PS.GenResult.ok ⟨"r"⟩, true, true⟩)]]

namespace PS

theorem handleMessage_spec (disabled : Bool) (st : HandlerState)
    (msg : QueueMessage) :
    (∀ a ∈ st.processing_jobs,
       a ∈ (handleMessage disabled st msg).1.processing_jobs) ∧
    (∀ (job : RequestProof) (m2 : QueueMessage),
       (handleMessage disabled st msg).2.2 = SpawnOutcome.spawned job m2 →
       job.job_id ∉ st.processing_jobs ∧
       (handleMessage disabled st msg).1.processing_jobs
         = setInsert st.processing_jobs job.job_id) := by
  cases hp : parseBody msg.body with
  | none =>
    constructor
    · intro a ha
      simp [handleMessage, hp]
      exact ha
    · intro job m2 heq
      simp [handleMessage, hp] at heq
  | some j =>
    cases j with
    | ProofGenerated p =>
      constructor
      · intro a ha
        simp [handleMessage, hp]
        exact ha
      · intro job m2 heq
        simp [handleMessage, hp] at heq
    | RequestProof job =>
      by_cases h : job.job_id ∈ st.processing_jobs
      · constructor
        · intro a ha
          simp [handleMessage, hp, h]
          exact ha
        · intro job2 m2 heq
          simp [handleMessage, hp, h] at heq
      · cases disabled
        · constructor
          · intro a ha
            simp only [handleMessage, hp]
            rw [if_neg h]
            exact (mem_setInsert st.processing_jobs job.job_id a).mpr (Or.inr ha)
          · intro job2 m2 heq
            simp only [handleMessage, hp] at heq
            rw [if_neg h] at heq
            simp at heq
            obtain ⟨h1, -⟩ := heq
            subst h1
            constructor
            · exact h
            · simp only [handleMessage, hp]
              rw [if_neg h]
              simp
        · constructor
          · intro a ha
            simp only [handleMessage, hp]
            rw [if_neg h]
            simp
            exact (mem_setInsert st.processing_jobs job.job_id a).mpr (Or.inr ha)
          · intro job2 m2 heq
            simp only [handleMessage, hp] at heq
            rw [if_neg h] at heq
            simp at heq

end PS

namespace PS

theorem step_preserves_inv (disabled : Bool) (maxF : Nat) {c c2 : Config}
    (h : Step disabled maxF c c2) (hI : InFlightInv c) : InFlightInv c2 := by
  obtain ⟨hnd, hmem⟩ := hI
  cases h with
  | arrive msgs => exact ⟨hnd, hmem⟩
  | handle m rest hp =>
    have hs := handleMessage_spec disabled c.st m
    cases hsp : (handleMessage disabled c.st m).2.2 with
    | noTask =>
      refine ⟨?_, ?_⟩
      · simp only [liveIds, hsp, List.append_nil]
        exact hnd
      · intro t ht
        simp only [hsp, List.append_nil] at ht
        exact hs.1 _ (hmem t ht)
    | spawned job m2 =>
      obtain ⟨hfresh, hproc⟩ := hs.2 job m2 hsp
      refine ⟨?_, ?_⟩
      · simp only [liveIds, hsp, List.map_append, List.map_cons, List.map_nil]
        rw [List.nodup_middle, List.append_nil]
        refine List.nodup_cons.mpr ⟨?_, ?_⟩
        · intro hmem2
          obtain ⟨t, htmem, hteq⟩ := List.mem_map.mp hmem2
          exact hfresh (hteq ▸ hmem t htmem)
        · exact hnd
      · intro t ht
        simp only [hsp] at ht
        rcases List.mem_append.mp ht with hold | hnew
        · exact hs.1 _ (hmem t hold)
        · have heq : t = ⟨job, m2, TaskPhase.started⟩ := List.mem_singleton.mp hnew
          subst heq
          show job.job_id ∈ (handleMessage disabled c.st m).1.processing_jobs
          rw [hproc]
          exact (mem_setInsert c.st.processing_jobs job.job_id job.job_id).mpr
            (Or.inl rfl)
  | snapshot t1 t2 job msg hp =>
    refine ⟨?_, ?_⟩
    · have hnd2 := hnd
      simp only [liveIds, hp, List.map_append, List.map_cons] at hnd2
      simp only [liveIds, List.map_append, List.map_cons]
      exact hnd2
    · intro t ht
      show t.job.job_id ∈ c.st.processing_jobs
      rcases List.mem_append.mp ht with h1 | h2
      · exact hmem t (by rw [hp]; exact List.mem_append.mpr (Or.inl h1))
      · rcases List.mem_cons.mp h2 with heq | h3
        · subst heq
          exact hmem ⟨job, msg, TaskPhase.started⟩ (by rw [hp]; simp)
        · exact hmem t (by
            rw [hp]
            exact List.mem_append.mpr (Or.inr (List.mem_cons.mpr (Or.inr h3))))
  | finish t1 t2 job msg sd gen sendOk deleteOk hp =>
    refine ⟨?_, ?_⟩
    · have hnd2 := hnd
      simp only [liveIds, hp] at hnd2
      simp only [liveIds]
      exact List.Nodup.sublist
        (List.Sublist.map _ (List.Sublist.append_left
          (List.sublist_cons_self _ t2) t1)) hnd2
    · intro t ht
      show t.job.job_id ∈
        (taskFinish c.st job msg sd gen sendOk deleteOk).1.processing_jobs
      rw [taskFinish_processing]
      refine (mem_setRemove _ _ _).mpr ⟨?_, ?_⟩
      · refine hmem t ?_
        rw [hp]
        rcases List.mem_append.mp ht with h1 | h2
        · exact List.mem_append.mpr (Or.inl h1)
        · exact List.mem_append.mpr (Or.inr (List.mem_cons.mpr (Or.inr h2)))
      · have hnd2 := hnd
        simp only [liveIds, hp, List.map_append, List.map_cons] at hnd2
        rw [List.nodup_middle] at hnd2
        have hnotin := (List.nodup_cons.mp hnd2).1
        intro heq
        apply hnotin
        rw [← heq]
        rcases List.mem_append.mp ht with h1 | h2
        · exact List.mem_append.mpr (Or.inl (List.mem_map.mpr ⟨t, h1, rfl⟩))
        · exact List.mem_append.mpr (Or.inr (List.mem_map.mpr ⟨t, h2, rfl⟩))

theorem inv_reachable (disabled : Bool) (maxF : Nat) (c : Config)
    (h : Reachable disabled maxF c) : InFlightInv c := by
  unfold Reachable at h
  induction h with
  | refl =>
    refine ⟨List.nodup_nil, ?_⟩
    intro t ht
    exact absurd ht (List.not_mem_nil t)
  | tail hab hbc ih => exact step_preserves_inv disabled maxF hbc ih

end PS

/-- C3: in every reachable configuration at most one live task (hence at
most one in-flight generate call) exists per job_id; a RequestProof whose
job_id is already in the processing set is skipped with no delete, no event
and no task; and the only step that removes a job_id from the processing
set is the completion (return or timeout) of a generating task for that
job_id. -/
theorem claim_C3_at_most_one_in_flight :
    (∀ (disabled : Bool) (maxF : Nat) (c : PS.Config),
      PS.Reachable disabled maxF c → ∀ jid : String,
      (c.tasks.countP (fun t => PS.isGenerating t.phase
        && (t.job.job_id == jid))) ≤ 1) ∧
    (∀ (disabled : Bool) (st : PS.HandlerState) (msg : PS.QueueMessage)
      (job : PS.RequestProof),
      PS.parseBody msg.body = some (PS.Job.RequestProof job) →
      job.job_id ∈ st.processing_jobs →
      PS.handleMessage disabled st msg = (st, [], PS.SpawnOutcome.noTask)) ∧
    (∀ (disabled : Bool) (maxF : Nat) (c c2 : PS.Config),
      PS.Step disabled maxF c c2 → ∀ jid : String,
      jid ∈ c.st.processing_jobs → jid ∉ c2.st.processing_jobs →
      ∃ (t1 t2 : List PS.LiveTask) (job : PS.RequestProof)
        (msg : PS.QueueMessage) (sd : Bool),
        job.job_id = jid ∧
        c.tasks = t1 ++ ⟨job, msg, PS.TaskPhase.generating sd⟩ :: t2 ∧
        c2.tasks = t1 ++ t2) := by
  refine ⟨?_, ?_, ?_⟩
  · intro disabled maxF c hr jid
    have hI := PS.inv_reachable disabled maxF c hr
    have h1 : c.tasks.countP (fun t => PS.isGenerating t.phase
        && (t.job.job_id == jid))
        ≤ c.tasks.countP (fun t => t.job.job_id == jid) := by
      apply List.countP_mono_left
      intro a ha hpa
      simp only [Bool.and_eq_true] at hpa
      exact hpa.2
    have h2 : c.tasks.countP (fun t => t.job.job_id == jid)
        = (PS.liveIds c).count jid := by
      rw [List.count_eq_countP, PS.liveIds, List.countP_map]
      rfl
    exact le_trans h1 (h2 ▸ List.nodup_iff_count_le_one.mp hI.1 jid)
  · intro disabled st msg job hp hmem2
    simp [PS.handleMessage, hp, hmem2]
  · intro disabled maxF c c2 hstep jid hin hout
    cases hstep with
    | arrive msgs => exact absurd hin hout
    | handle m rest hp =>
      exact absurd ((PS.handleMessage_spec disabled c.st m).1 jid hin) hout
    | snapshot t1 t2 job msg hp => exact absurd hin hout
    | finish t1 t2 job msg sd gen sendOk deleteOk hp =>
      have hjid : jid = job.job_id := by
        by_contra hne
        apply hout
        show jid ∈
          (PS.taskFinish c.st job msg sd gen sendOk deleteOk).1.processing_jobs
        rw [PS.taskFinish_processing]
        exact (PS.mem_setRemove _ _ _).mpr ⟨hin, hne⟩
      exact ⟨t1, t2, job, msg, sd, hjid.symm, hp, rfl⟩

/-- C3 witness: the invariant at the initial configuration, a concrete
skipped duplicate message, and a concrete finishing task that releases its
job_id. -/
theorem claim_C3_at_most_one_in_flight_witness :
    (PS.initConfig.tasks.countP (fun t => PS.isGenerating t.phase
      && (t.job.job_id == "a"))) ≤ 1 ∧
    PS.handleMessage false ⟨["j"], []⟩
        ⟨PS.Body.json (Json.obj [("job_id", Json.str "j"),
          ("start_timestamp", Json.num 1), ("end_timestamp", Json.num 2)]),
         some "id1"⟩
      = (⟨["j"], []⟩, [], PS.SpawnOutcome.noTask) ∧
    (∃ (t1 t2 : List PS.LiveTask) (job : PS.RequestProof)
      (msg : PS.QueueMessage) (sd : Bool),
      job.job_id = "j" ∧
      (⟨⟨["j"], [("j", 0)]⟩, [],
        [⟨⟨"j", none, 1, 2, none, none, none, none, none, none⟩,
          ⟨PS.Body.text "x", none⟩, PS.TaskPhase.generating false⟩],
        []⟩ : PS.Config).tasks
        = t1 ++ ⟨job, msg, PS.TaskPhase.generating sd⟩ :: t2) := by
  refine ⟨?_, ?_, ?_⟩
  · exact claim_C3_at_most_one_in_flight.1 false 3 PS.initConfig
      Relation.ReflTransGen.refl "a"
  · exact claim_C3_at_most_one_in_flight.2.1 false ⟨["j"], []⟩
      ⟨PS.Body.json (Json.obj [("job_id", Json.str "j"),
        ("start_timestamp", Json.num 1), ("end_timestamp", Json.num 2)]),
       some "id1"⟩
      ⟨"j", none, 1, 2, none, none, none, none, none, none⟩ (by decide)
      (by simp)
  · obtain ⟨t1, t2, job, msg, sd, hjid, htasks, -⟩ :=
      claim_C3_at_most_one_in_flight.2.2 false 3
        ⟨⟨["j"], [("j", 0)]⟩, [],
          [⟨⟨"j", none, 1, 2, none, none, none, none, none, none⟩,
            ⟨PS.Body.text "x", none⟩, PS.TaskPhase.generating false⟩], []⟩
        ⟨(PS.taskFinish ⟨["j"], [("j", 0)]⟩
            ⟨"j", none, 1, 2, none, none, none, none, none, none⟩
            ⟨PS.Body.text "x", none⟩ false PS.GenResult.err true true).1,
          [], [] ++ [],
          [] ++ PS.Event.generateCall (PS.create_timestamp_ranges
            ⟨"j", none, 1, 2, none, none, none, none, none, none⟩) ::
            (PS.taskFinish ⟨["j"], [("j", 0)]⟩
              ⟨"j", none, 1, 2, none, none, none, none, none, none⟩
              ⟨PS.Body.text "x", none⟩ false PS.GenResult.err true true).2⟩
        (PS.Step.finish _ [] []
          ⟨"j", none, 1, 2, none, none, none, none, none, none⟩
          ⟨PS.Body.text "x", none⟩ false PS.GenResult.err true true rfl)
        "j" (by simp) (by decide)
    exact ⟨t1, t2, job, msg, sd, hjid, htasks⟩
